import Mathlib

/-!
Verification of the MCP protocol engine of `htb-mcp-server`.

The development shallowly embeds the Go sources:
  * `pkg/mcp/protocol.go`   — the JSON-RPC message model and its constructors;
  * `internal/server/server.go` — the read/dispatch/respond loop;
  * `internal/tools/*.go`   — the tool registry and the twelve registered tools.

Modelling conventions.

JSON-representable Go `interface{}` values are modelled by the inductive
type `Json`.  Go's `encoding/json` identifies the nil interface with JSON
`null` (unmarshalling `null` into an `interface{}` field yields nil, and a
nil interface field tagged `omitempty` is omitted when marshalling), so
`Json.null` plays both roles: "field absent / nil interface" and "explicit
JSON null".  JSON numbers are modelled as exact integers (every identifier
and error code appearing in the repository's protocol is integral).
JSON objects are association lists in field order; Go's decoder processes
duplicate keys left to right, which the fold-based decoder below mirrors.
Go's case-insensitive fallback when matching object keys to struct fields
is not modelled: all keys produced and consumed by this program are the
exact lowercase tags.  Error *texts* returned by `encoding/json` are
abstracted (only success vs. failure of a decode is meaningful to the
server, which forwards the text verbatim as diagnostic data).
-/

namespace HTBMCP

/-- JSON-representable values (Go `interface{}` after `encoding/json`). -/
inductive Json where
  | null
  | bool (b : Bool)
  | num (n : Int)
  | str (s : String)
  | arr (elems : List Json)
  | obj (fields : List (String × Json))

/-- `true` exactly on `Json.null` (Go: the interface value is nil). -/
def Json.isNull : Json → Bool
  | .null => true
  | _ => false

/-! ### `pkg/mcp/protocol.go` — constants -/

/-- Go: `const MCPVersion = "2024-11-05"`. -/
def MCPVersion : String := "2024-11-05"

/-- Go: `MethodInitialize = "initialize"`. -/
def MethodInitialize : String := "initialize"

/-- Go: `MethodListTools = "tools/list"`. -/
def MethodListTools : String := "tools/list"

/-- Go: `MethodCallTool = "tools/call"`. -/
def MethodCallTool : String := "tools/call"

/-- Go: `ErrorCodeParseError = -32700`. -/
def ErrorCodeParseError : Int := -32700

/-- Go: `ErrorCodeInvalidRequest = -32600`. -/
def ErrorCodeInvalidRequest : Int := -32600

/-- Go: `ErrorCodeMethodNotFound = -32601`. -/
def ErrorCodeMethodNotFound : Int := -32601

/-- Go: `ErrorCodeInvalidParams = -32602`. -/
def ErrorCodeInvalidParams : Int := -32602

/-- Go: `ErrorCodeInternalError = -32603`. -/
def ErrorCodeInternalError : Int := -32603

/-! ### `pkg/mcp/protocol.go` — the message model

Go zero values are the structure defaults: `""` for strings, `Json.null`
for `interface{}` fields, `none` for the `*Error` pointer field. -/

/-- Go `mcp.Error`: `{code int; message string; data interface{}}`. -/
structure Error where
  code : Int := 0
  message : String := ""
  data : Json := .null

/-- Go `mcp.Message`: the JSON-RPC envelope.  Field order matches the Go
struct declaration (which fixes the marshalled field order). -/
structure Message where
  jsonrpc : String := ""
  id : Json := .null
  method : String := ""
  params : Json := .null
  result : Json := .null
  error : Option Error := none

/-! ### Constructors (`NewRequest` … `NewNotification`) -/

/-- Go `mcp.NewRequest(id, method, params)`. -/
def NewRequest (id : Json) (method : String) (params : Json) : Message :=
  { jsonrpc := "2.0", id := id, method := method, params := params }

/-- Go `mcp.NewResponse(id, result)`. -/
def NewResponse (id : Json) (result : Json) : Message :=
  { jsonrpc := "2.0", id := id, result := result }

/-- Go `mcp.NewErrorResponse(id, code, message, data)`. -/
def NewErrorResponse (id : Json) (code : Int) (message : String) (data : Json) : Message :=
  { jsonrpc := "2.0", id := id,
    error := some { code := code, message := message, data := data } }

/-- Go `mcp.NewNotification(method, params)`. -/
def NewNotification (method : String) (params : Json) : Message :=
  { jsonrpc := "2.0", method := method, params := params }

/-! ### Marshalling (`json.Marshal` on `Message`)

Struct tags: every field of `Message` except `jsonrpc` carries
`omitempty`; for an `interface{}` field that omits exactly the nil
interface (`Json.null` here), for a string field the empty string, and
for the `*Error` pointer field a nil pointer (`none`).  Inside `Error`,
`code` and `message` are unconditional and `data` is `omitempty`. -/

/-- Marshal a `mcp.Error` value. -/
def encodeError (e : Error) : Json :=
  .obj ([("code", .num e.code), ("message", .str e.message)] ++
    (if e.data.isNull then [] else [("data", e.data)]))

/-- Marshal the `*Error` pointer field: a nil pointer (`none`) is
omitted, a non-nil one marshalled. -/
def encodeErrorField : Option Error → List (String × Json)
  | none => []
  | some e => [("error", encodeError e)]

/-- Marshal a `mcp.Message` value (field order = Go struct order). -/
def encodeMessage (m : Message) : Json :=
  .obj ([("jsonrpc", .str m.jsonrpc)] ++
    (if m.id.isNull then [] else [("id", m.id)]) ++
    (if m.method = "" then [] else [("method", .str m.method)]) ++
    (if m.params.isNull then [] else [("params", m.params)]) ++
    (if m.result.isNull then [] else [("result", m.result)]) ++
    encodeErrorField m.error)

/-! ### Unmarshalling (`json.Unmarshal` into `Message`)

`json.Unmarshal` into a struct succeeds only on a JSON object (or JSON
`null`, which is a no-op leaving the zero value); it processes the
object's keys in order, ignores unknown keys, treats `null` for a typed
field as a no-op, stores any value into an `interface{}` field, and
fails on a type mismatch for a typed field. -/

/-- Apply one object entry to a partially decoded `Error` (Go field tags
`code`, `message`, `data`). -/
def setErrorField (e : Error) : String → Json → Except String Error
  | "code", v =>
    match v with
    | .num n => .ok { e with code := n }
    | .null => .ok e
    | _ => .error "cannot unmarshal value into field code of type int"
  | "message", v =>
    match v with
    | .str s => .ok { e with message := s }
    | .null => .ok e
    | _ => .error "cannot unmarshal value into field message of type string"
  | "data", v => .ok { e with data := v }
  | _, _ => .ok e

/-- Fold object entries into an `Error` (later duplicate keys win). -/
def decodeErrorFields (e : Error) : List (String × Json) → Except String Error
  | [] => .ok e
  | (k, v) :: rest =>
    match setErrorField e k v with
    | .error msg => .error msg
    | .ok e' => decodeErrorFields e' rest

/-- Unmarshal a JSON value into `mcp.Error`. -/
def decodeError : Json → Except String Error
  | .obj fields => decodeErrorFields {} fields
  | .null => .ok {}
  | _ => .error "cannot unmarshal value into Go value of type mcp.Error"

/-- Apply one object entry to a partially decoded `Message` (Go field
tags `jsonrpc`, `id`, `method`, `params`, `result`, `error`). -/
def setField (m : Message) : String → Json → Except String Message
  | "jsonrpc", v =>
    match v with
    | .str s => .ok { m with jsonrpc := s }
    | .null => .ok m
    | _ => .error "cannot unmarshal value into field jsonrpc of type string"
  | "id", v => .ok { m with id := v }
  | "method", v =>
    match v with
    | .str s => .ok { m with method := s }
    | .null => .ok m
    | _ => .error "cannot unmarshal value into field method of type string"
  | "params", v => .ok { m with params := v }
  | "result", v => .ok { m with result := v }
  | "error", v =>
    match v with
    | .null => .ok { m with error := none }
    | _ =>
      match decodeError v with
      | .error msg => .error msg
      | .ok e => .ok { m with error := some e }
  | _, _ => .ok m

/-- Fold object entries into a `Message` (later duplicate keys win). -/
def decodeFields (m : Message) : List (String × Json) → Except String Message
  | [] => .ok m
  | (k, v) :: rest =>
    match setField m k v with
    | .error msg => .error msg
    | .ok m' => decodeFields m' rest

/-- Unmarshal a JSON value into `mcp.Message` (the `json.Unmarshal` call
in `handleMessage`). -/
def decodeMessage : Json → Except String Message
  | .obj fields => decodeFields {} fields
  | .null => .ok {}
  | _ => .error "cannot unmarshal value into Go value of type mcp.Message"

/-! ### `pkg/mcp/protocol.go` — initialize payloads -/

/-- Go `mcp.ClientInfo`: `{name, version string}`. -/
structure ClientInfo where
  name : String := ""
  version : String := ""

/-- Go `mcp.ClientCapabilities`: two `map[string]interface{}` fields,
both `omitempty`; a nil Go map is `none`. -/
structure ClientCapabilities where
  experimental : Option (List (String × Json)) := none
  sampling : Option (List (String × Json)) := none

/-- Go `mcp.InitializeRequest`. -/
structure InitializeRequest where
  protocolVersion : String := ""
  capabilities : ClientCapabilities := {}
  clientInfo : ClientInfo := {}
  meta : Option (List (String × Json)) := none

/-- Go `mcp.ToolsCapability`: `{listChanged bool}` (tag `omitempty`). -/
structure ToolsCapability where
  listChanged : Bool := false

/-- Go `mcp.PromptsCapability`. -/
structure PromptsCapability where
  listChanged : Bool := false

/-- Go `mcp.ResourcesCapability`. -/
structure ResourcesCapability where
  subscribe : Bool := false
  listChanged : Bool := false

/-- Go `mcp.ServerCapabilities`; all five fields are `omitempty`
(pointer fields are `none` when nil, map fields `none` when nil). -/
structure ServerCapabilities where
  experimental : Option (List (String × Json)) := none
  logging : Option (List (String × Json)) := none
  prompts : Option PromptsCapability := none
  resources : Option ResourcesCapability := none
  tools : Option ToolsCapability := none

/-- Go `mcp.ServerInfo`: `{name, version string}`. -/
structure ServerInfo where
  name : String := ""
  version : String := ""

/-- Go `mcp.InitializeResponse`. -/
structure InitializeResponse where
  protocolVersion : String := ""
  capabilities : ServerCapabilities := {}
  serverInfo : ServerInfo := {}

/-- Marshal `ToolsCapability` (`listChanged` is `omitempty`: `false` is
omitted). -/
def encodeToolsCapability (c : ToolsCapability) : Json :=
  .obj (if c.listChanged then [("listChanged", .bool true)] else [])

/-- Marshal `PromptsCapability`. -/
def encodePromptsCapability (c : PromptsCapability) : Json :=
  .obj (if c.listChanged then [("listChanged", .bool true)] else [])

/-- Marshal `ResourcesCapability`. -/
def encodeResourcesCapability (c : ResourcesCapability) : Json :=
  .obj ((if c.subscribe then [("subscribe", .bool true)] else []) ++
    (if c.listChanged then [("listChanged", .bool true)] else []))

/-- Marshal a Go `map[string]interface{}` field tagged `omitempty`:
a nil or empty map is omitted. -/
def encodeMapField (key : String) : Option (List (String × Json)) → List (String × Json)
  | none => []
  | some [] => []
  | some fields => [(key, .obj fields)]

/-- Marshal `ServerCapabilities`. -/
def encodeServerCapabilities (c : ServerCapabilities) : Json :=
  .obj (encodeMapField "experimental" c.experimental ++
    encodeMapField "logging" c.logging ++
    (match c.prompts with
      | none => []
      | some p => [("prompts", encodePromptsCapability p)]) ++
    (match c.resources with
      | none => []
      | some r => [("resources", encodeResourcesCapability r)]) ++
    (match c.tools with
      | none => []
      | some t => [("tools", encodeToolsCapability t)]))

/-- Marshal `ServerInfo` (no `omitempty`). -/
def encodeServerInfo (i : ServerInfo) : Json :=
  .obj [("name", .str i.name), ("version", .str i.version)]

/-- Marshal `InitializeResponse` (no `omitempty` on any field). -/
def encodeInitializeResponse (r : InitializeResponse) : Json :=
  .obj [("protocolVersion", .str r.protocolVersion),
    ("capabilities", encodeServerCapabilities r.capabilities),
    ("serverInfo", encodeServerInfo r.serverInfo)]

/-- Unmarshal into a Go `map[string]interface{}` variable: an object
yields its entries, `null` is a no-op on the nil map, anything else is a
type error. -/
def decodeMapValue (cur : Option (List (String × Json))) :
    Json → Except String (Option (List (String × Json)))
  | .obj fields => .ok (some fields)
  | .null => .ok cur
  | _ => .error "cannot unmarshal value into Go value of type map[string]interface {}"

/-- Apply one object entry to a `ClientInfo`. -/
def setClientInfoField (i : ClientInfo) : String → Json → Except String ClientInfo
  | "name", v =>
    match v with
    | .str s => .ok { i with name := s }
    | .null => .ok i
    | _ => .error "cannot unmarshal value into field name of type string"
  | "version", v =>
    match v with
    | .str s => .ok { i with version := s }
    | .null => .ok i
    | _ => .error "cannot unmarshal value into field version of type string"
  | _, _ => .ok i

/-- Fold object entries into a `ClientInfo`. -/
def decodeClientInfoFields (i : ClientInfo) : List (String × Json) → Except String ClientInfo
  | [] => .ok i
  | (k, v) :: rest =>
    match setClientInfoField i k v with
    | .error msg => .error msg
    | .ok i' => decodeClientInfoFields i' rest

/-- Unmarshal into `mcp.ClientInfo`. -/
def decodeClientInfo (cur : ClientInfo) : Json → Except String ClientInfo
  | .obj fields => decodeClientInfoFields cur fields
  | .null => .ok cur
  | _ => .error "cannot unmarshal value into Go value of type mcp.ClientInfo"

/-- Apply one object entry to a `ClientCapabilities`. -/
def setClientCapsField (c : ClientCapabilities) :
    String → Json → Except String ClientCapabilities
  | "experimental", v =>
    match decodeMapValue c.experimental v with
    | .error msg => .error msg
    | .ok m => .ok { c with experimental := m }
  | "sampling", v =>
    match decodeMapValue c.sampling v with
    | .error msg => .error msg
    | .ok m => .ok { c with sampling := m }
  | _, _ => .ok c

/-- Fold object entries into a `ClientCapabilities`. -/
def decodeClientCapsFields (c : ClientCapabilities) :
    List (String × Json) → Except String ClientCapabilities
  | [] => .ok c
  | (k, v) :: rest =>
    match setClientCapsField c k v with
    | .error msg => .error msg
    | .ok c' => decodeClientCapsFields c' rest

/-- Unmarshal into `mcp.ClientCapabilities`. -/
def decodeClientCaps (cur : ClientCapabilities) : Json → Except String ClientCapabilities
  | .obj fields => decodeClientCapsFields cur fields
  | .null => .ok cur
  | _ => .error "cannot unmarshal value into Go value of type mcp.ClientCapabilities"

/-- Apply one object entry to an `InitializeRequest` (tags
`protocolVersion`, `capabilities`, `clientInfo`, `meta`). -/
def setInitField (r : InitializeRequest) : String → Json → Except String InitializeRequest
  | "protocolVersion", v =>
    match v with
    | .str s => .ok { r with protocolVersion := s }
    | .null => .ok r
    | _ => .error "cannot unmarshal value into field protocolVersion of type string"
  | "capabilities", v =>
    match decodeClientCaps r.capabilities v with
    | .error msg => .error msg
    | .ok c => .ok { r with capabilities := c }
  | "clientInfo", v =>
    match decodeClientInfo r.clientInfo v with
    | .error msg => .error msg
    | .ok i => .ok { r with clientInfo := i }
  | "meta", v =>
    match decodeMapValue r.meta v with
    | .error msg => .error msg
    | .ok m => .ok { r with meta := m }
  | _, _ => .ok r

/-- Fold object entries into an `InitializeRequest`. -/
def decodeInitFields (r : InitializeRequest) :
    List (String × Json) → Except String InitializeRequest
  | [] => .ok r
  | (k, v) :: rest =>
    match setInitField r k v with
    | .error msg => .error msg
    | .ok r' => decodeInitFields r' rest

/-- Unmarshal into `mcp.InitializeRequest`. -/
def decodeInitializeRequest : Json → Except String InitializeRequest
  | .obj fields => decodeInitFields {} fields
  | .null => .ok {}
  | _ => .error "cannot unmarshal value into Go value of type mcp.InitializeRequest"

/-! ### `pkg/mcp/protocol.go` — tool descriptors, call payloads, content -/

/-- Go `mcp.Property` (the `items *Property` field is not populated by
any registered tool and is not modelled).  `defaultValue` embeds the Go
field `Default` (tag `default,omitempty`). -/
structure Property where
  type : String := ""
  description : String := ""
  enum : List String := []
  defaultValue : Json := .null

/-- Go `mcp.ToolSchema`: `properties` is a `map[string]Property`,
modelled as an association list in source-literal order (Go map
iteration order is unspecified; no claim depends on it). -/
structure ToolSchema where
  type : String := ""
  properties : List (String × Property) := []
  required : List String := []
  additionalProperties : Json := .null

/-- Go `mcp.Tool` — a tool descriptor as served by `tools/list`. -/
structure McpTool where
  name : String := ""
  description : String := ""
  inputSchema : ToolSchema := {}

/-- Go `mcp.CallToolRequest`: `{name string; arguments map[string]interface{}}`
(`arguments` tag `omitempty`; a nil map is `none`). -/
structure CallToolRequest where
  name : String := ""
  arguments : Option (List (String × Json)) := none

/-- Go `mcp.Content`: `{type string; text, data, mimeType string omitempty}`. -/
structure Content where
  type : String := ""
  text : String := ""
  data : String := ""
  mimeType : String := ""

/-- Go `mcp.CallToolResponse`: `{content []Content; isError bool omitempty}`. -/
structure CallToolResponse where
  content : List Content := []
  isError : Bool := false

/-- Go `mcp.CreateTextContent(text)`. -/
def CreateTextContent (text : String) : Content :=
  { type := "text", text := text }

/-- Marshal `mcp.Property` (`enum`, `default` are `omitempty`). -/
def encodeProperty (p : Property) : Json :=
  .obj ([("type", .str p.type), ("description", .str p.description)] ++
    (match p.enum with
      | [] => []
      | es => [("enum", .arr (es.map .str))]) ++
    (if p.defaultValue.isNull then [] else [("default", p.defaultValue)]))

/-- Marshal `mcp.ToolSchema` (`required`, `additionalProperties` are
`omitempty`; `properties` is unconditional). -/
def encodeToolSchema (s : ToolSchema) : Json :=
  .obj ([("type", .str s.type),
    ("properties", .obj (s.properties.map (fun kp => (kp.1, encodeProperty kp.2))))] ++
    (match s.required with
      | [] => []
      | rs => [("required", .arr (rs.map .str))]) ++
    (if s.additionalProperties.isNull then []
      else [("additionalProperties", s.additionalProperties)]))

/-- Marshal `mcp.Tool` (no `omitempty`). -/
def encodeMcpTool (t : McpTool) : Json :=
  .obj [("name", .str t.name), ("description", .str t.description),
    ("inputSchema", encodeToolSchema t.inputSchema)]

/-- Marshal `mcp.Content`. -/
def encodeContent (c : Content) : Json :=
  .obj ([("type", .str c.type)] ++
    (if c.text = "" then [] else [("text", .str c.text)]) ++
    (if c.data = "" then [] else [("data", .str c.data)]) ++
    (if c.mimeType = "" then [] else [("mimeType", .str c.mimeType)]))

/-- Marshal `mcp.CallToolResponse` (`isError` is `omitempty`: `false`
is omitted; a nil `content` slice marshals to `null`). -/
def encodeCallToolResponse (r : CallToolResponse) : Json :=
  .obj ([("content",
      match r.content with
      | [] => .null
      | cs => .arr (cs.map encodeContent))] ++
    (if r.isError then [("isError", .bool true)] else []))

/-- Apply one object entry to a `CallToolRequest` (tags `name`,
`arguments`). -/
def setCallToolField (r : CallToolRequest) : String → Json → Except String CallToolRequest
  | "name", v =>
    match v with
    | .str s => .ok { r with name := s }
    | .null => .ok r
    | _ => .error "cannot unmarshal value into field name of type string"
  | "arguments", v =>
    match decodeMapValue r.arguments v with
    | .error msg => .error msg
    | .ok m => .ok { r with arguments := m }
  | _, _ => .ok r

/-- Fold object entries into a `CallToolRequest`. -/
def decodeCallToolFields (r : CallToolRequest) :
    List (String × Json) → Except String CallToolRequest
  | [] => .ok r
  | (k, v) :: rest =>
    match setCallToolField r k v with
    | .error msg => .error msg
    | .ok r' => decodeCallToolFields r' rest

/-- Unmarshal into `mcp.CallToolRequest`. -/
def decodeCallToolRequest : Json → Except String CallToolRequest
  | .obj fields => decodeCallToolFields {} fields
  | .null => .ok {}
  | _ => .error "cannot unmarshal value into Go value of type mcp.CallToolRequest"

/-! ### `internal/tools` — the tool abstraction and the twelve tools

Go's `tools.Tool` is an interface `{Name, Description, Schema, Execute}`;
each implementation wraps the external HTB HTTP client (`pkg/htb`,
out of scope for this engine per the design).  The `Execute` bodies
perform outbound HTTP and are therefore abstracted: a `Client` supplies,
per tool name, the outcome of an invocation.  Nothing below ever
evaluates an `exec` — the claims concern names, lookup and dispatch. -/

/-- The external HTB API client, abstracted to the outcome of invoking a
given tool on given arguments. -/
structure Client where
  execute : String → Option (List (String × Json)) → Except String CallToolResponse

/-- A registered tool: the data the registry observes through the Go
`Tool` interface. -/
structure Tool where
  name : String
  description : String
  schema : ToolSchema
  exec : Option (List (String × Json)) → Except String CallToolResponse

/-- `challenges.go`: `ListChallenges`. -/
def NewListChallenges (client : Client) : Tool :=
  { name := "list_challenges",
    description := "Get a paginated list of HackTheBox challenges with optional filtering by category, difficulty, and status",
    schema :=
      { type := "object",
        properties :=
          [("category", { type := "string", description := "Filter by challenge category (Web, Pwn, Crypto, Forensics, etc.)" }),
           ("difficulty", { type := "string", description := "Filter by difficulty level", enum := ["Easy", "Medium", "Hard", "Insane"] }),
           ("status", { type := "string", description := "Filter by challenge status", enum := ["active", "retired"], defaultValue := .str "active" }),
           ("page", { type := "integer", description := "Page number for pagination", defaultValue := .num 1 }),
           ("per_page", { type := "integer", description := "Number of challenges per page", defaultValue := .num 20 })] },
    exec := client.execute "list_challenges" }

/-- `challenges.go`: `StartChallenge`. -/
def NewStartChallenge (client : Client) : Tool :=
  { name := "start_challenge",
    description := "Start a HackTheBox challenge by ID to initialize the challenge environment",
    schema :=
      { type := "object",
        properties :=
          [("challenge_id", { type := "string", description := "The ID of the challenge to start" })],
        required := ["challenge_id"] },
    exec := client.execute "start_challenge" }

/-- `challenges.go`: `SubmitChallengeFlag`. -/
def NewSubmitChallengeFlag (client : Client) : Tool :=
  { name := "submit_challenge_flag",
    description := "Submit a flag for a HackTheBox challenge",
    schema :=
      { type := "object",
        properties :=
          [("challenge_id", { type := "string", description := "The ID of the challenge" }),
           ("flag", { type := "string", description := "The flag to submit" }),
           ("difficulty", { type := "integer", description := "Difficulty rating (1-10)" })],
        required := ["challenge_id", "flag", "difficulty"] },
    exec := client.execute "submit_challenge_flag" }

/-- `machines.go`: `ListMachines`. -/
def NewListMachines (client : Client) : Tool :=
  { name := "list_machines",
    description := "Get a list of HackTheBox machines with optional filtering by status, difficulty, and OS",
    schema :=
      { type := "object",
        properties :=
          [("status", { type := "string", description := "Filter by machine status", enum := ["active", "retired"], defaultValue := .str "active" }),
           ("difficulty", { type := "string", description := "Filter by difficulty level", enum := ["Easy", "Medium", "Hard", "Insane"] }),
           ("os", { type := "string", description := "Filter by operating system", enum := ["Linux", "Windows"] }),
           ("page", { type := "integer", description := "Page number for pagination", defaultValue := .num 1 }),
           ("per_page", { type := "integer", description := "Number of machines per page", defaultValue := .num 20 })] },
    exec := client.execute "list_machines" }

/-- `machines.go`: `StartMachine`. -/
def NewStartMachine (client : Client) : Tool :=
  { name := "start_machine",
    description := "Start a HackTheBox machine by ID and get connection details",
    schema :=
      { type := "object",
        properties :=
          [("machine_id", { type := "integer", description := "The ID of the machine to start" })],
        required := ["machine_id"] },
    exec := client.execute "start_machine" }

/-- `machines.go`: `GetMachineIP`. -/
def NewGetMachineIP (client : Client) : Tool :=
  { name := "get_machine_ip",
    description := "Get the IP address of the currently active machine",
    schema :=
      { type := "object",
        properties :=
          [("machine_id", { type := "integer", description := "Optional machine ID. If not provided, gets the active machine IP" })] },
    exec := client.execute "get_machine_ip" }

/-- `machines.go`: `SubmitUserFlag`. -/
def NewSubmitUserFlag (client : Client) : Tool :=
  { name := "submit_user_flag",
    description := "Submit a user flag for a HackTheBox machine",
    schema :=
      { type := "object",
        properties :=
          [("machine_id", { type := "integer", description := "The ID of the machine" }),
           ("flag", { type := "string", description := "The user flag to submit" })],
        required := ["machine_id", "flag"] },
    exec := client.execute "submit_user_flag" }

/-- `machines.go`: `SubmitRootFlag`. -/
def NewSubmitRootFlag (client : Client) : Tool :=
  { name := "submit_root_flag",
    description := "Submit a root flag for a HackTheBox machine",
    schema :=
      { type := "object",
        properties :=
          [("machine_id", { type := "integer", description := "The ID of the machine" }),
           ("flag", { type := "string", description := "The root flag to submit" })],
        required := ["machine_id", "flag"] },
    exec := client.execute "submit_root_flag" }

/-- `users.go`: `GetUserProfile`. -/
def NewGetUserProfile (client : Client) : Tool :=
  { name := "get_user_profile",
    description := "Get the authenticated user's profile information including points, rank, and subscription status",
    schema := { type := "object", properties := [] },
    exec := client.execute "get_user_profile" }

/-- `users.go`: `GetUserProgress`. -/
def NewGetUserProgress (client : Client) : Tool :=
  { name := "get_user_progress",
    description := "Get user progress including completed challenges, machines, and achievements",
    schema :=
      { type := "object",
        properties :=
          [("type", { type := "string", description := "Type of progress to retrieve", enum := ["overview", "machines", "challenges"], defaultValue := .str "overview" }),
           ("limit", { type := "integer", description := "Limit the number of results", defaultValue := .num 50 })] },
    exec := client.execute "get_user_progress" }

/-- `search.go`: `SearchContent`. -/
def NewSearchContent (client : Client) : Tool :=
  { name := "search_content",
    description := "Search across HackTheBox challenges, machines, and users by name or keyword",
    schema :=
      { type := "object",
        properties :=
          [("query", { type := "string", description := "Search query string" }),
           ("type", { type := "string", description := "Type of content to search", enum := ["all", "machines", "challenges", "users"], defaultValue := .str "all" })],
        required := ["query"] },
    exec := client.execute "search_content" }

/-- `search.go`: `GetServerStatus`. -/
def NewGetServerStatus (client : Client) : Tool :=
  { name := "get_server_status",
    description := "Get MCP server health status and HTB API connectivity information",
    schema := { type := "object", properties := [] },
    exec := client.execute "get_server_status" }

/-! ### `internal/tools/challenges.go` — the registry

Go's `Registry.tools` is a `map[string]Tool`.  It is modelled as an
association list with unique keys: `insertAssoc` is Go's map assignment
(replace the binding if the key is present, append otherwise) and
`lookupAssoc` is Go's map lookup (exact string equality). -/

/-- Go map lookup `r.tools[name]` — exact string match. -/
def lookupAssoc : List (String × Tool) → String → Option Tool
  | [], _ => none
  | (k, t) :: rest, n => if k = n then some t else lookupAssoc rest n

/-- Go map assignment `r.tools[name] = tool` — overwrite or append. -/
def insertAssoc : List (String × Tool) → String → Tool → List (String × Tool)
  | [], k, t => [(k, t)]
  | (k', t') :: rest, k, t =>
    if k' = k then (k, t) :: rest else (k', t') :: insertAssoc rest k t

/-- Go `tools.Registry` (the `htbClient` field lives inside each tool's
abstracted `exec`). -/
structure Registry where
  tools : List (String × Tool) := []

/-- Go `(r *Registry) RegisterTool(tool)`: `r.tools[tool.Name()] = tool`. -/
def RegisterTool (r : Registry) (t : Tool) : Registry :=
  { tools := insertAssoc r.tools t.name t }

/-- Go `(r *Registry) GetTool(name)`: map lookup, `(tool, exists)`. -/
def GetTool (r : Registry) (name : String) : Option Tool :=
  lookupAssoc r.tools name

/-- Go `(r *Registry) GetTools()`: one `mcp.Tool` descriptor per
registered tool, asking each tool for name/description/schema.  (Go
iterates the map in unspecified order; the model iterates in insertion
order — every claim about the result is order-independent.) -/
def GetTools (r : Registry) : List McpTool :=
  r.tools.map (fun kt =>
    { name := kt.2.name, description := kt.2.description, inputSchema := kt.2.schema })

/-- Go `(r *Registry) ListToolNames()`. -/
def ListToolNames (r : Registry) : List String :=
  r.tools.map Prod.fst

/-- Go `(r *Registry) ExecuteTool(ctx, name, args)`: resolve, else
`fmt.Errorf("tool not found: %s", name)`; on success forward to the
tool's `Execute`. -/
def ExecuteTool (r : Registry) (name : String)
    (args : Option (List (String × Json))) : Except String CallToolResponse :=
  match GetTool r name with
  | none => .error ("tool not found: " ++ name)
  | some t => t.exec args

/-- Go `(r *Registry) registerTools()` — the twelve static
registrations, in source order. -/
def registerTools (client : Client) (r : Registry) : Registry :=
  let r := RegisterTool r (NewListChallenges client)
  let r := RegisterTool r (NewStartChallenge client)
  let r := RegisterTool r (NewSubmitChallengeFlag client)
  let r := RegisterTool r (NewListMachines client)
  let r := RegisterTool r (NewStartMachine client)
  let r := RegisterTool r (NewGetMachineIP client)
  let r := RegisterTool r (NewSubmitUserFlag client)
  let r := RegisterTool r (NewSubmitRootFlag client)
  let r := RegisterTool r (NewGetUserProfile client)
  let r := RegisterTool r (NewGetUserProgress client)
  let r := RegisterTool r (NewSearchContent client)
  let r := RegisterTool r (NewGetServerStatus client)
  r

/-- Go `tools.NewRegistry(htbClient)`: empty map, then `registerTools`. -/
def NewRegistry (client : Client) : Registry :=
  registerTools client {}

/-! ### `internal/server/server.go` — the protocol engine

`sendMessage` marshals one `Message` and writes it followed by a single
newline; the output transcript is modelled as the list of messages
written, in order (one list element = one framed line on stdout).
Every code path of `handleMessage` performs exactly one send, so the
handler is a total function to `Message`. -/

/-- Go `(s *Server) parseParams(params, &req)` instantiated at
`InitializeRequest`: a nil `params` is rejected with
`"missing parameters"`; otherwise the value is re-marshalled and
unmarshalled into the target struct.  (A `params` field that was absent
and one that was JSON `null` both leave the `interface{}` field nil.) -/
def parseInitParams (params : Json) : Except String InitializeRequest :=
  if params.isNull then .error "missing parameters"
  else decodeInitializeRequest params

/-- Go `parseParams` instantiated at `CallToolRequest`. -/
def parseCallToolParams (params : Json) : Except String CallToolRequest :=
  if params.isNull then .error "missing parameters"
  else decodeCallToolRequest params

/-- The fixed `mcp.InitializeResponse` literal built by
`handleInitialize`. -/
def initializeResult : InitializeResponse :=
  { protocolVersion := MCPVersion,
    capabilities := { tools := some { listChanged := false } },
    serverInfo := { name := "htb-mcp-server", version := "1.0.0" } }

/-- Go `(s *Server) handleInitialize`: invalid params yield an
`ErrorCodeInvalidParams` error response; otherwise the fixed response is
sent.  A protocol-version mismatch is only logged (`log.Printf`), which
has no effect on the response and is not modelled. -/
def handleInitialize (msg : Message) : Message :=
  match parseInitParams msg.params with
  | .error e => NewErrorResponse msg.id ErrorCodeInvalidParams "Invalid params" (.str e)
  | .ok _ => NewResponse msg.id (encodeInitializeResponse initializeResult)

/-- Marshal the `[]mcp.Tool` slice built by `GetTools` (a nil Go slice
marshals to `null`, a non-empty one to an array). -/
def encodeToolsValue : List McpTool → Json
  | [] => .null
  | ts => .arr (ts.map encodeMcpTool)

/-- Go `(s *Server) handleListTools`: the descriptor list wrapped under
the single key `"tools"`. -/
def handleListTools (reg : Registry) (msg : Message) : Message :=
  NewResponse msg.id (.obj [("tools", encodeToolsValue (GetTools reg))])

/-- Go `(s *Server) handleCallTool`: invalid params yield an
`ErrorCodeInvalidParams` error response; an execution failure is wrapped
as a *successful* response whose payload has `isError: true` and one
text block `"Error executing tool: <err>"`; a successful execution's
result is sent as-is. -/
def handleCallTool (reg : Registry) (msg : Message) : Message :=
  match parseCallToolParams msg.params with
  | .error e => NewErrorResponse msg.id ErrorCodeInvalidParams "Invalid params" (.str e)
  | .ok req =>
    match ExecuteTool reg req.name req.arguments with
    | .error err =>
      NewResponse msg.id (encodeCallToolResponse
        { content := [CreateTextContent ("Error executing tool: " ++ err)],
          isError := true })
    | .ok result => NewResponse msg.id (encodeCallToolResponse result)

/-- The `switch msg.Method` of `handleMessage`: three lifecycle methods,
every other value (including the empty string) falls to the default
`ErrorCodeMethodNotFound` branch carrying `"Unknown method: <method>"`
as data, correlated to `msg.ID`. -/
def dispatch (reg : Registry) (msg : Message) : Message :=
  if msg.method = MethodInitialize then handleInitialize msg
  else if msg.method = MethodListTools then handleListTools reg msg
  else if msg.method = MethodCallTool then handleCallTool reg msg
  else NewErrorResponse msg.id ErrorCodeMethodNotFound "Method not found"
    (.str ("Unknown method: " ++ msg.method))

/-- One line read by the scanner: empty, not valid JSON text (carrying
the decoder's error text), or valid JSON text parsing to a value. -/
inductive InputLine where
  | blank
  | notJson (errText : String)
  | json (v : Json)

/-- The `line == ""` test of `processMessages`. -/
def InputLine.isBlank : InputLine → Bool
  | .blank => true
  | _ => false

/-- The `json.Unmarshal([]byte(line), &msg)` step of `handleMessage`:
non-JSON text fails with the parser's error; JSON text is decoded into
the `Message` struct (which can itself fail on a shape mismatch). -/
def decodeLine : InputLine → Except String Message
  | .blank => .error "unexpected end of JSON input"
  | .notJson e => .error e
  | .json v => decodeMessage v

/-- Go `(s *Server) handleMessage(ctx, line)`: a decode failure
immediately yields an `ErrorCodeParseError` response with a nil
identifier (the function returns `nil` — it never propagates the decode
failure); otherwise the message is dispatched.  Every path sends exactly
one message. -/
def handleMessage (reg : Registry) (line : InputLine) : Message :=
  match decodeLine line with
  | .error e => NewErrorResponse .null ErrorCodeParseError "Parse error" (.str e)
  | .ok msg => dispatch reg msg

/-- Go `(s *Server) processMessages`: the scanner loop — blank lines are
skipped, every other line is handled (its single response written
before the next line is read), and the loop continues regardless of the
outcome. -/
def processMessages (reg : Registry) : List InputLine → List Message
  | [] => []
  | .blank :: rest => processMessages reg rest
  | line :: rest => handleMessage reg line :: processMessages reg rest

/-! ## Helper lemmas -/

/-- `isNull` characterises `Json.null`. -/
theorem Json.isNull_iff (j : Json) : j.isNull = true ↔ j = .null := by
  cases j <;> simp [Json.isNull]

/-- A concrete client for instantiating theorems: every invocation
reports an unreachable backend.  Only tool names matter to the claims;
no claim ever evaluates an invocation outcome. -/
def offlineClient : Client :=
  ⟨fun _ _ => .error "HTB API unreachable"⟩

/-- How many of `{method, result, error}` are populated in a message:
a non-empty method string, a non-nil result, a non-nil error pointer.
This formalises the spec's "meaningfully populated" for the
mutual-exclusion invariant. -/
def populatedCount (m : Message) : Nat :=
  (if m.method = "" then 0 else 1) + (if m.result.isNull then 0 else 1) +
    (if m.error.isNone then 0 else 1)

/-! ## Registry lemmas -/

/-- Looking up the key just inserted finds the inserted value. -/
theorem lookupAssoc_insertAssoc_self (l : List (String × Tool)) (k : String) (t : Tool) :
    lookupAssoc (insertAssoc l k t) k = some t := by
  induction l with
  | nil => simp [insertAssoc, lookupAssoc]
  | cons kv rest ih =>
    obtain ⟨k', t'⟩ := kv
    by_cases h : k' = k
    · simp [insertAssoc, h, lookupAssoc]
    · simp [insertAssoc, h, lookupAssoc, ih]

/-- Inserting twice at the same key is inserting the second value once:
the last registration wins and the first leaves no trace. -/
theorem insertAssoc_insertAssoc_same (l : List (String × Tool)) (k : String) (t1 t2 : Tool) :
    insertAssoc (insertAssoc l k t1) k t2 = insertAssoc l k t2 := by
  induction l with
  | nil => simp [insertAssoc]
  | cons kv rest ih =>
    obtain ⟨k', t'⟩ := kv
    by_cases h : k' = k
    · simp [insertAssoc, h]
    · simp [insertAssoc, h, ih]

/-- Insertion at one key does not affect lookups at another. -/
theorem lookupAssoc_insertAssoc_ne (l : List (String × Tool)) (k : String) (t : Tool)
    (n : String) (h : n ≠ k) : lookupAssoc (insertAssoc l k t) n = lookupAssoc l n := by
  have h' : k ≠ n := Ne.symm h
  induction l with
  | nil => simp [insertAssoc, lookupAssoc, h']
  | cons kv rest ih =>
    obtain ⟨k', t'⟩ := kv
    by_cases hk : k' = k
    · subst hk
      simp [insertAssoc, lookupAssoc, h']
    · simp [insertAssoc, hk, lookupAssoc, ih]

/-- A key that is not among the stored keys is not found. -/
theorem lookupAssoc_not_mem (l : List (String × Tool)) (n : String)
    (h : n ∉ l.map Prod.fst) : lookupAssoc l n = none := by
  induction l with
  | nil => rfl
  | cons kv rest ih =>
    obtain ⟨k', t'⟩ := kv
    simp only [List.map_cons, List.mem_cons] at h
    push_neg at h
    simp [lookupAssoc, Ne.symm h.1, ih h.2]

/-! ## Claim theorems -/

/-- Claim C1: a line that fails to decode as JSON yields exactly one
error response with code `-32700` (`ErrorCodeParseError`) and a nil
(`null`) identifier; the malformed line produces nothing else, and the
loop goes on to process the remaining lines unchanged (the handler is a
total function — the process does not crash). -/
theorem C1_parse_error_recovery (reg : Registry) (e : String) (rest : List InputLine) :
    handleMessage reg (.notJson e) =
      NewErrorResponse .null ErrorCodeParseError "Parse error" (.str e) ∧
    (handleMessage reg (.notJson e)).id = .null ∧
    (handleMessage reg (.notJson e)).error =
      some { code := -32700, message := "Parse error", data := .str e } ∧
    ErrorCodeParseError = -32700 ∧
    processMessages reg (.notJson e :: rest) =
      handleMessage reg (.notJson e) :: processMessages reg rest :=
  ⟨rfl, rfl, rfl, rfl, rfl⟩

/-- Claim C2: a decoded message whose method is none of `initialize`,
`tools/list`, `tools/call` (the empty method included) is answered with
exactly one error response with code `-32601`, whose data carries the
offending method name and whose identifier is the request's identifier;
the dispatcher is total (no crash, no dropped line). -/
theorem C2_method_not_found (reg : Registry) (msg : Message)
    (h : msg.method ∉ [MethodInitialize, MethodListTools, MethodCallTool]) :
    dispatch reg msg =
      NewErrorResponse msg.id ErrorCodeMethodNotFound "Method not found"
        (.str ("Unknown method: " ++ msg.method)) ∧
    (dispatch reg msg).id = msg.id ∧
    (dispatch reg msg).error =
      some { code := -32601, message := "Method not found",
             data := .str ("Unknown method: " ++ msg.method) } ∧
    ErrorCodeMethodNotFound = -32601 := by
  simp only [List.mem_cons, List.not_mem_nil, or_false, not_or] at h
  obtain ⟨h1, h2, h3⟩ := h
  unfold dispatch
  rw [if_neg h1, if_neg h2, if_neg h3]
  exact ⟨rfl, rfl, rfl, rfl⟩

/-- Witness for C2 at a concrete unhandled method (`resources/list`,
a method name the protocol file declares but the engine does not
serve). -/
theorem C2_method_not_found_witness :
    dispatch { tools := [] } { jsonrpc := "2.0", id := .num 7, method := "resources/list" } =
      NewErrorResponse (.num 7) ErrorCodeMethodNotFound "Method not found"
        (.str "Unknown method: resources/list") ∧
    ErrorCodeMethodNotFound = -32601 := by
  have h := C2_method_not_found { tools := [] }
    { jsonrpc := "2.0", id := .num 7, method := "resources/list" } (by decide)
  exact ⟨h.1, h.2.2.2⟩

/-- Claim C6: registration stores a tool under its own name; a second
registration under the same name silently replaces the first (last
wins, no duplicate error — the two-step registry state literally equals
the one-step state); lookup is exact-match only — any name that is not
literally a stored key (case variants included) reports not-found — and
an insertion never disturbs other keys. -/
theorem C6_registry_semantics (r : Registry) (t t1 t2 : Tool) (n : String) :
    GetTool (RegisterTool r t) t.name = some t ∧
    (t1.name = t2.name → RegisterTool (RegisterTool r t1) t2 = RegisterTool r t2) ∧
    (n ∉ ListToolNames r → GetTool r n = none) ∧
    (n ≠ t.name → GetTool (RegisterTool r t) n = GetTool r n) := by
  refine ⟨lookupAssoc_insertAssoc_self .., fun h => ?_, fun h => ?_, fun h => ?_⟩
  · show Registry.mk _ = Registry.mk _
    rw [show (RegisterTool r t1).tools = insertAssoc r.tools t1.name t1 from rfl, h,
      insertAssoc_insertAssoc_same]
  · exact lookupAssoc_not_mem r.tools n h
  · exact lookupAssoc_insertAssoc_ne r.tools t.name t n h

/-- Two variants of a tool sharing one name, for exercising the
last-registration-wins policy. -/
def dupToolV1 : Tool :=
  { name := "dup_tool", description := "first registration",
    schema := { type := "object", properties := [] },
    exec := fun _ => .error "HTB API unreachable" }

/-- Second variant of the duplicate-named tool. -/
def dupToolV2 : Tool :=
  { name := "dup_tool", description := "second registration",
    schema := { type := "object", properties := [] },
    exec := fun _ => .error "HTB API unreachable" }

/-- Witness for C6: concrete registration, overwrite, exact-match miss
on a case variant of a registered name, and preservation of other
keys, all on the real twelve-tool registry. -/
theorem C6_registry_semantics_witness :
    GetTool (RegisterTool (NewRegistry offlineClient) dupToolV1) "dup_tool" = some dupToolV1 ∧
    RegisterTool (RegisterTool (NewRegistry offlineClient) dupToolV1) dupToolV2 =
      RegisterTool (NewRegistry offlineClient) dupToolV2 ∧
    GetTool (NewRegistry offlineClient) "List_Challenges" = none ∧
    GetTool (RegisterTool (NewRegistry offlineClient) dupToolV1) "list_challenges" =
      GetTool (NewRegistry offlineClient) "list_challenges" := by
  exact ⟨(C6_registry_semantics (NewRegistry offlineClient) dupToolV1 dupToolV1 dupToolV1 "").1,
    (C6_registry_semantics (NewRegistry offlineClient) dupToolV1 dupToolV1 dupToolV2 "").2.1 rfl,
    (C6_registry_semantics (NewRegistry offlineClient) dupToolV1 dupToolV1 dupToolV1
      "List_Challenges").2.2.1 (by decide),
    (C6_registry_semantics (NewRegistry offlineClient) dupToolV1 dupToolV1 dupToolV1
      "list_challenges").2.2.2 (by decide)⟩

/-- Claim C7: the four message constructors are pure total functions;
for each, exactly the role field among `{method, result, error}` is
populated (given a message with a role: a request or notification has a
non-empty method, a response a non-nil result), result and error are
never both set, the notification constructor leaves the identifier nil,
and the error-response constructor leaves the result nil. -/
theorem C7_constructor_invariants (id : Json) (mth : String) (p r d : Json)
    (c : Int) (s : String) :
    ((NewRequest id mth p).result = .null ∧ (NewRequest id mth p).error = none ∧
      (NewRequest id mth p).id = id ∧ (NewRequest id mth p).method = mth ∧
      (mth ≠ "" → populatedCount (NewRequest id mth p) = 1)) ∧
    ((NewResponse id r).method = "" ∧ (NewResponse id r).error = none ∧
      (NewResponse id r).id = id ∧ (NewResponse id r).result = r ∧
      (r.isNull = false → populatedCount (NewResponse id r) = 1)) ∧
    ((NewErrorResponse id c s d).method = "" ∧ (NewErrorResponse id c s d).result = .null ∧
      (NewErrorResponse id c s d).id = id ∧
      (NewErrorResponse id c s d).error = some { code := c, message := s, data := d } ∧
      populatedCount (NewErrorResponse id c s d) = 1) ∧
    ((NewNotification mth p).id = .null ∧ (NewNotification mth p).result = .null ∧
      (NewNotification mth p).error = none ∧ (NewNotification mth p).method = mth ∧
      (mth ≠ "" → populatedCount (NewNotification mth p) = 1)) := by
  refine ⟨⟨rfl, rfl, rfl, rfl, fun h => ?_⟩, ⟨rfl, rfl, rfl, rfl, fun h => ?_⟩,
    ⟨rfl, rfl, rfl, rfl, ?_⟩, ⟨rfl, rfl, rfl, rfl, fun h => ?_⟩⟩
  · simp [populatedCount, NewRequest, Json.isNull, h]
  · simp [populatedCount, NewResponse, h]
  · simp [populatedCount, NewErrorResponse, Json.isNull]
  · simp [populatedCount, NewNotification, Json.isNull, h]

/-- Witness for C7 at concrete constructor arguments (non-empty method
`"initialize"`, non-nil result `"ok"`). -/
theorem C7_constructor_invariants_witness :
    populatedCount (NewRequest (.num 1) "initialize" .null) = 1 ∧
    populatedCount (NewResponse (.num 1) (.str "ok")) = 1 ∧
    populatedCount (NewErrorResponse (.num 1) (-32700) "Parse error" .null) = 1 ∧
    populatedCount (NewNotification "notifications/progress" .null) = 1 ∧
    (NewNotification "notifications/progress" .null).id = .null := by
  obtain ⟨⟨_, _, _, _, hreq⟩, ⟨_, _, _, _, hresp⟩, ⟨_, _, _, _, herr⟩, ⟨hid, _, _, _, hnot⟩⟩ :=
    C7_constructor_invariants (.num 1) "initialize" .null (.str "ok") .null (-32700) "Parse error"
  refine ⟨hreq (by decide), hresp (by decide), herr, ?_, ?_⟩
  · obtain ⟨_, _, _, _, hnot'⟩ :=
      (C7_constructor_invariants (.num 1) "notifications/progress" .null (.str "ok") .null
        (-32700) "Parse error").2.2.2
    exact hnot' (by decide)
  · exact (C7_constructor_invariants (.num 1) "notifications/progress" .null (.str "ok") .null
      (-32700) "Parse error").2.2.2.1

/-! ## Dispatch lemmas -/

/-- A message carrying the `initialize` method reaches `handleInitialize`. -/
theorem dispatchInit (reg : Registry) (msg : Message)
    (hm : msg.method = MethodInitialize) : dispatch reg msg = handleInitialize msg := by
  unfold dispatch
  rw [hm, if_pos rfl]

/-- A message carrying the `tools/list` method reaches `handleListTools`. -/
theorem dispatch_listTools (reg : Registry) (msg : Message)
    (hm : msg.method = MethodListTools) : dispatch reg msg = handleListTools reg msg := by
  unfold dispatch
  rw [hm]
  rw [if_neg (by decide), if_pos rfl]

/-- A message carrying the `tools/call` method reaches `handleCallTool`. -/
theorem dispatch_callTool (reg : Registry) (msg : Message)
    (hm : msg.method = MethodCallTool) : dispatch reg msg = handleCallTool reg msg := by
  unfold dispatch
  rw [hm]
  rw [if_neg (by decide), if_neg (by decide), if_pos rfl]

/-- Claim C3: a `tools/call` request whose well-formed params name an
unregistered tool is answered with a *successful* envelope — no `error`
object, a populated `result` — whose payload has `isError: true` and a
single text content block whose text mentions the unknown tool name. -/
theorem C3_unknown_tool_soft_error (reg : Registry) (msg : Message) (req : CallToolRequest)
    (hm : msg.method = MethodCallTool)
    (hp : parseCallToolParams msg.params = .ok req)
    (hn : GetTool reg req.name = none) :
    dispatch reg msg =
      NewResponse msg.id (encodeCallToolResponse
        { content := [CreateTextContent ("Error executing tool: tool not found: " ++ req.name)],
          isError := true }) ∧
    (dispatch reg msg).error = none ∧
    (dispatch reg msg).result.isNull = false ∧
    (dispatch reg msg).id = msg.id ∧
    (∃ pre, (CreateTextContent ("Error executing tool: tool not found: " ++ req.name)).text =
      pre ++ req.name) := by
  have hd : dispatch reg msg =
      NewResponse msg.id (encodeCallToolResponse
        { content := [CreateTextContent ("Error executing tool: tool not found: " ++ req.name)],
          isError := true }) := by
    rw [dispatch_callTool reg msg hm]
    unfold handleCallTool
    rw [hp]
    show (match ExecuteTool reg req.name req.arguments with
      | .error err =>
        NewResponse msg.id (encodeCallToolResponse
          { content := [CreateTextContent ("Error executing tool: " ++ err)], isError := true })
      | .ok result => NewResponse msg.id (encodeCallToolResponse result)) = _
    unfold ExecuteTool
    rw [hn]
    rfl
  refine ⟨hd, ?_, ?_, ?_, "Error executing tool: tool not found: ", rfl⟩
  · rw [hd]; rfl
  · rw [hd]; rfl
  · rw [hd]; rfl

/-- Witness for C3: calling the unregistered tool `nonexistent` on the
real twelve-tool registry (the scenario of §8 of the spec). -/
theorem C3_unknown_tool_soft_error_witness :
    dispatch (NewRegistry offlineClient)
      { jsonrpc := "2.0", id := .num 2, method := "tools/call",
        params := .obj [("name", .str "nonexistent"), ("arguments", .obj [])] } =
      NewResponse (.num 2) (encodeCallToolResponse
        { content := [CreateTextContent "Error executing tool: tool not found: nonexistent"],
          isError := true }) :=
  (C3_unknown_tool_soft_error (NewRegistry offlineClient)
    { jsonrpc := "2.0", id := .num 2, method := "tools/call",
      params := .obj [("name", .str "nonexistent"), ("arguments", .obj [])] }
    { name := "nonexistent", arguments := some [] } rfl rfl rfl).1

/-- Claim C4: an `initialize` request with well-formed params — whatever
protocol version the client declares — is answered with one success
response (no error object) whose result is the fixed
`InitializeResponse`: the server's protocol version `2024-11-05`, a
capabilities object declaring tool support with `listChanged = false`,
and the static server identity `htb-mcp-server`/`1.0.0`. -/
theorem C4_initialize_succeeds (reg : Registry) (msg : Message) (req : InitializeRequest)
    (hm : msg.method = MethodInitialize)
    (hp : parseInitParams msg.params = .ok req) :
    dispatch reg msg = NewResponse msg.id (encodeInitializeResponse initializeResult) ∧
    (dispatch reg msg).error = none ∧
    (dispatch reg msg).id = msg.id ∧
    initializeResult.protocolVersion = MCPVersion ∧
    initializeResult.capabilities.tools = some { listChanged := false } ∧
    initializeResult.serverInfo = { name := "htb-mcp-server", version := "1.0.0" } ∧
    encodeInitializeResponse initializeResult =
      .obj [("protocolVersion", .str "2024-11-05"),
        ("capabilities", .obj [("tools", .obj [])]),
        ("serverInfo", .obj [("name", .str "htb-mcp-server"), ("version", .str "1.0.0")])] := by
  have hd : dispatch reg msg = NewResponse msg.id (encodeInitializeResponse initializeResult) := by
    rw [dispatchInit reg msg hm]
    unfold handleInitialize
    rw [hp]
  refine ⟨hd, ?_, ?_, rfl, rfl, rfl, rfl⟩
  · rw [hd]; rfl
  · rw [hd]; rfl

/-- Witness for C4: a client declaring the mismatched protocol version
`"1.0"` still gets the fixed successful handshake. -/
theorem C4_initialize_succeeds_witness :
    ("1.0" ≠ MCPVersion) ∧
    dispatch { tools := [] }
      { jsonrpc := "2.0", id := .num 3, method := "initialize",
        params := .obj [("protocolVersion", .str "1.0"), ("capabilities", .obj []),
          ("clientInfo", .obj [("name", .str "test-client"), ("version", .str "0.1")])] } =
      NewResponse (.num 3) (encodeInitializeResponse initializeResult) :=
  ⟨by decide,
    (C4_initialize_succeeds { tools := [] }
      { jsonrpc := "2.0", id := .num 3, method := "initialize",
        params := .obj [("protocolVersion", .str "1.0"), ("capabilities", .obj []),
          ("clientInfo", .obj [("name", .str "test-client"), ("version", .str "0.1")])] }
      { protocolVersion := "1.0",
        clientInfo := { name := "test-client", version := "0.1" } } rfl rfl).1⟩

/-- The names of the twelve statically registered tools, in
registration order. -/
def registeredToolNames : List String :=
  ["list_challenges", "start_challenge", "submit_challenge_flag",
   "list_machines", "start_machine", "get_machine_ip",
   "submit_user_flag", "submit_root_flag",
   "get_user_profile", "get_user_progress",
   "search_content", "get_server_status"]

/-- Claim C5: a `tools/list` request against the statically built
registry is answered with one success response whose result wraps the
descriptor list under `"tools"`; that list has one descriptor per
registered tool — its name multiset is exactly the twelve registered
names, with no duplicates — and, the registry being fixed for the run,
every repeated call yields the same (hence set-equal) name set. -/
theorem C5_tools_list_complete (client : Client) (msg : Message)
    (hm : msg.method = MethodListTools) :
    dispatch (NewRegistry client) msg =
      NewResponse msg.id (.obj [("tools", encodeToolsValue (GetTools (NewRegistry client)))]) ∧
    (dispatch (NewRegistry client) msg).error = none ∧
    (dispatch (NewRegistry client) msg).id = msg.id ∧
    (GetTools (NewRegistry client)).map McpTool.name = registeredToolNames ∧
    (GetTools (NewRegistry client)).length = 12 ∧
    ((GetTools (NewRegistry client)).map McpTool.name).Nodup := by
  have hd : dispatch (NewRegistry client) msg =
      NewResponse msg.id (.obj [("tools", encodeToolsValue (GetTools (NewRegistry client)))]) :=
    dispatch_listTools (NewRegistry client) msg hm
  have hnames : (GetTools (NewRegistry client)).map McpTool.name = registeredToolNames := rfl
  refine ⟨hd, ?_, ?_, hnames, rfl, ?_⟩
  · rw [hd]; rfl
  · rw [hd]; rfl
  · rw [hnames]
    decide

/-- Witness for C5: the `tools/list` scenario of §8 of the spec,
request id `1`. -/
theorem C5_tools_list_complete_witness :
    dispatch (NewRegistry offlineClient) { jsonrpc := "2.0", id := .num 1, method := "tools/list" } =
      NewResponse (.num 1)
        (.obj [("tools", encodeToolsValue (GetTools (NewRegistry offlineClient)))]) ∧
    (GetTools (NewRegistry offlineClient)).length = 12 :=
  ⟨(C5_tools_list_complete offlineClient
      { jsonrpc := "2.0", id := .num 1, method := "tools/list" } rfl).1,
   (C5_tools_list_complete offlineClient
      { jsonrpc := "2.0", id := .num 1, method := "tools/list" } rfl).2.2.2.2.1⟩

/-- Every dispatch branch echoes the request's identifier into the one
response it produces. -/
theorem dispatch_id (reg : Registry) (msg : Message) : (dispatch reg msg).id = msg.id := by
  unfold dispatch
  split_ifs with h1 h2 h3
  · unfold handleInitialize
    cases parseInitParams msg.params <;> rfl
  · rfl
  · unfold handleCallTool
    cases parseCallToolParams msg.params with
    | error e => rfl
    | ok req =>
      cases h : ExecuteTool reg req.name req.arguments <;>
        simp [h, NewResponse, NewErrorResponse]
  · rfl

/-- The transcript of the read loop: one response per non-blank line,
in input order. -/
theorem processMessages_eq_filter_map (reg : Registry) (lines : List InputLine) :
    processMessages reg lines =
      (lines.filter (fun l => !l.isBlank)).map (handleMessage reg) := by
  induction lines with
  | nil => rfl
  | cons l rest ih =>
    cases l with
    | blank => simpa [processMessages, InputLine.isBlank] using ih
    | notJson e => simp [processMessages, InputLine.isBlank, ih]
    | json v => simp [processMessages, InputLine.isBlank, ih]

/-- Claim C9: the engine writes exactly one message per processed
request (each list element is one `sendMessage` call, i.e. one
marshalled line followed by a single newline), in exactly the order the
non-blank input lines were read — no reordering, no batching; the
response identifier is the request's identifier verbatim (`null` for a
parse error, where no identifier could be recovered). -/
theorem C9_one_ordered_correlated_response (reg : Registry) (lines : List InputLine)
    (e : String) :
    processMessages reg lines =
      (lines.filter (fun l => !l.isBlank)).map (handleMessage reg) ∧
    (handleMessage reg (.notJson e)).id = .null ∧
    (∀ v msg, decodeMessage v = .ok msg → (handleMessage reg (.json v)).id = msg.id) := by
  refine ⟨processMessages_eq_filter_map reg lines, rfl, fun v msg h => ?_⟩
  simp only [handleMessage, decodeLine, h]
  exact dispatch_id reg msg

/-- Witness for C9: a concrete decoded request with numeric identifier
`2` is answered under identifier `2`. -/
theorem C9_one_ordered_correlated_response_witness :
    (handleMessage { tools := [] }
      (.json (.obj [("jsonrpc", .str "2.0"), ("id", .num 2), ("method", .str "tools/x")]))).id =
      (Json.num 2) :=
  (C9_one_ordered_correlated_response { tools := [] } [] "x").2.2
    (.obj [("jsonrpc", .str "2.0"), ("id", .num 2), ("method", .str "tools/x")])
    { jsonrpc := "2.0", id := .num 2, method := "tools/x" } rfl

/-- Claim C10: for `initialize` and `tools/call`, a request whose
`params` is nil — which is what both an absent `params` field and an
explicit JSON `null` decode to, per the last two conjuncts — is
answered with an `ErrorCodeInvalidParams` (`-32602`) error response
carrying `"missing parameters"`; for `tools/call` the outcome is the
same for every registry, so the request never reaches the registry. -/
theorem C10_missing_params_rejected (reg reg' : Registry) (msg : Message) (i : Json)
    (mth : String) (h : msg.params = .null) :
    (msg.method = MethodInitialize →
      dispatch reg msg =
        NewErrorResponse msg.id ErrorCodeInvalidParams "Invalid params"
          (.str "missing parameters")) ∧
    (msg.method = MethodCallTool →
      dispatch reg msg =
        NewErrorResponse msg.id ErrorCodeInvalidParams "Invalid params"
          (.str "missing parameters") ∧
      dispatch reg msg = dispatch reg' msg) ∧
    ErrorCodeInvalidParams = -32602 ∧
    decodeMessage (.obj [("jsonrpc", .str "2.0"), ("id", i), ("method", .str mth)]) =
      .ok { jsonrpc := "2.0", id := i, method := mth } ∧
    decodeMessage (.obj [("jsonrpc", .str "2.0"), ("id", i), ("method", .str mth),
        ("params", .null)]) =
      .ok { jsonrpc := "2.0", id := i, method := mth } := by
  refine ⟨fun hm => ?_, fun hm => ⟨?_, ?_⟩, rfl, rfl, rfl⟩
  · rw [dispatchInit reg msg hm]
    unfold handleInitialize parseInitParams
    rw [h]
    rfl
  · rw [dispatch_callTool reg msg hm]
    unfold handleCallTool parseCallToolParams
    rw [h]
    rfl
  · rw [dispatch_callTool reg msg hm, dispatch_callTool reg' msg hm]
    unfold handleCallTool parseCallToolParams
    rw [h]
    rfl

/-- Witness for C10: an `initialize` request with no `params` and a
`tools/call` request with `params: null`, both rejected with `-32602`
(the latter on the full twelve-tool registry). -/
theorem C10_missing_params_rejected_witness :
    dispatch { tools := [] } { jsonrpc := "2.0", id := .num 4, method := "initialize" } =
      NewErrorResponse (.num 4) ErrorCodeInvalidParams "Invalid params"
        (.str "missing parameters") ∧
    dispatch (NewRegistry offlineClient)
      { jsonrpc := "2.0", id := .num 5, method := "tools/call", params := .null } =
      NewErrorResponse (.num 5) ErrorCodeInvalidParams "Invalid params"
        (.str "missing parameters") :=
  ⟨(C10_missing_params_rejected { tools := [] } { tools := [] }
      { jsonrpc := "2.0", id := .num 4, method := "initialize" } .null "" rfl).1 rfl,
   ((C10_missing_params_rejected (NewRegistry offlineClient) { tools := [] }
      { jsonrpc := "2.0", id := .num 5, method := "tools/call", params := .null }
      .null "" rfl).2.1 rfl).1⟩

/-! ## Round-trip lemmas (claim C8) -/

/-- The `"error"` entry produced by marshalling a non-nil `*Error`
decodes back to that error. -/
theorem setField_error_encodeError (m : Message) (e : Error) :
    setField m "error" (encodeError e) = .ok { m with error := some e } := by
  obtain ⟨c, s, d⟩ := e
  by_cases hd : d.isNull = true
  · rw [Json.isNull_iff] at hd
    subst hd
    rfl
  · rw [Bool.not_eq_true] at hd
    simp [encodeError, hd, setField, decodeError, decodeErrorFields, setErrorField]

/-- Decoding the tail segment contributed by the `error` field of a
marshalled message restores that field. -/
theorem decodeFields_errSeg (m : Message) (er : Option Error) (h : m.error = none) :
    decodeFields m (encodeErrorField er) = .ok { m with error := er } := by
  cases er with
  | none =>
    obtain ⟨jr, i, mth, p, r, f⟩ := m
    subst h
    rfl
  | some e =>
    simp [encodeErrorField, decodeFields, setField_error_encodeError]

/-- Marshalling then unmarshalling a `Message` value is the identity:
the population pattern of every field — and the identifier exactly — is
preserved. -/
theorem decodeMessage_encodeMessage (m : Message) :
    decodeMessage (encodeMessage m) = .ok m := by
  obtain ⟨jr, i, mth, p, r, er⟩ := m
  by_cases hi : i.isNull = true <;> by_cases hm : mth = "" <;>
    by_cases hp : p.isNull = true <;> by_cases hr : r.isNull = true
  all_goals try rw [Bool.not_eq_true] at hi
  all_goals try rw [Bool.not_eq_true] at hp
  all_goals try rw [Bool.not_eq_true] at hr
  all_goals try rw [Json.isNull_iff] at hi
  all_goals try rw [Json.isNull_iff] at hp
  all_goals try rw [Json.isNull_iff] at hr
  all_goals try subst hm
  all_goals try subst hi
  all_goals try subst hp
  all_goals try subst hr
  all_goals simp only [encodeMessage, decodeMessage]
  all_goals try simp [hm]
  all_goals try simp [hi]
  all_goals try simp [hp]
  all_goals try simp [hr]
  all_goals simp only [Json.isNull, List.append_eq, List.cons_append, List.nil_append,
    List.append_nil, if_true, if_false, decodeFields, setField]
  all_goals rw [decodeFields_errSeg]
  all_goals rfl

/-- Claim C8: encoding any constructed message (request, response,
error response, notification) and decoding it back yields the original
message — the population pattern of `method`/`id`/`params`/`result`/
`error` is preserved exactly, the mutual-exclusion invariant with it,
and any identifier (string, number, or any other JSON value) survives
the round trip unchanged; the final conjunct extends this to every
`Message` value. -/
theorem C8_encode_decode_roundtrip (ident : Json) (mth : String) (p r d : Json)
    (c : Int) (s : String) :
    decodeMessage (encodeMessage (NewRequest ident mth p)) = .ok (NewRequest ident mth p) ∧
    decodeMessage (encodeMessage (NewResponse ident r)) = .ok (NewResponse ident r) ∧
    decodeMessage (encodeMessage (NewErrorResponse ident c s d)) =
      .ok (NewErrorResponse ident c s d) ∧
    decodeMessage (encodeMessage (NewNotification mth p)) = .ok (NewNotification mth p) ∧
    (∀ m : Message, decodeMessage (encodeMessage m) = .ok m) :=
  ⟨decodeMessage_encodeMessage _, decodeMessage_encodeMessage _,
   decodeMessage_encodeMessage _, decodeMessage_encodeMessage _,
   decodeMessage_encodeMessage⟩

end HTBMCP
